import Mathlib

/-!
Shallow embedding of VTK's bag plot class (Charts/Core/vtkPlotBag.cxx).

Doubles are modelled as exact rationals; tables are lists of named columns;
the point cache built by the superclass is an optional list of 2D points.
External collaborators that are part of the toolkit but not under src/
(the superclass cache rebuild, the projected convex hull, the numeric
formatters) are modelled from the spec and documented as such.
-/

namespace VTKPlotBag

/-- A 2D point (x, y); C++ doubles are modelled as exact rationals. -/
abbrev Point := ℚ × ℚ

/-- A table column: either a numeric data array (vtkDataArray) or a
non-numeric array (e.g. vtkStringArray), with a name. -/
inductive Column where
  | data : String → List ℚ → Column
  | str : String → List String → Column
deriving DecidableEq

/-- The column's name. -/
def Column.name : Column → String
  | .data n _ => n
  | .str n _ => n

/-- GetNumberOfTuples. -/
def Column.numberOfTuples : Column → Nat
  | .data _ v => v.length
  | .str _ v => v.length

/-- vtkDataArray::SafeDownCast: succeeds only on numeric data arrays. -/
def Column.asDataArray : Column → Option (List ℚ)
  | .data _ v => some v
  | .str _ _ => none

/-- A vtkTable: an ordered list of columns. -/
structure Table where
  columns : List Column
deriving DecidableEq

/-- vtkTable::GetColumn(i): the i-th column, or null when out of range. -/
def Table.getColumn (t : Table) (i : Nat) : Option Column :=
  t.columns.get? i

/-- vtkTable::GetColumnByName: first column with the given name, or null. -/
def Table.getColumnByName (t : Table) (n : String) : Option Column :=
  t.columns.find? (fun c => c.name == n)

/-- A vtkBrush: RGB color bytes plus an opacity byte. -/
structure Brush where
  red : Nat
  green : Nat
  blue : Nat
  opacity : Nat
deriving DecidableEq

/-- The state of a vtkPlotBag instance that the claims depend on. -/
structure PlotBag where
  /-- this->Data->GetInput(): the bound input table, if any. -/
  table : Option Table
  /-- this->Points: the point cache built by the superclass, if any. -/
  points : Option (List Point)
  /-- this->MedianPoints: the cached median-bag polygon. -/
  medianPoints : List Point
  /-- this->Q3Points: the cached outer-bag polygon. -/
  q3Points : List Point
  /-- this->Visible. -/
  visible : Bool
  /-- this->BagVisible. -/
  bagVisible : Bool
  /-- this->Brush (shared fill brush). -/
  brush : Brush
  /-- this->UseIndexForXSeries. -/
  useIndexForXSeries : Bool
  /-- Name of the array-to-process slot 0 (x). -/
  xArray : Option String
  /-- Name of the array-to-process slot 1 (y). -/
  yArray : Option String
  /-- Name of the array-to-process slot 2 (density). -/
  densityArray : Option String
  /-- this->AutoLabels, if built. -/
  autoLabels : Option (List String)
deriving DecidableEq

/-! ### The density sort (class DensityVal and std::sort) -/

/-- The strict-weak-order used by class DensityVal: a compares before b when
a's density is greater; as a sort invariant we keep the reflexive version,
descending density. -/
def densGE (a b : ℚ × Nat) : Prop := b.1 ≤ a.1

instance : DecidableRel densGE := fun a b =>
  inferInstanceAs (Decidable (b.1 ≤ a.1))

instance : IsTotal (ℚ × Nat) densGE := ⟨fun a b => le_total b.1 a.1⟩

instance : IsTrans (ℚ × Nat) densGE := ⟨fun _ _ _ h1 h2 => le_trans h2 h1⟩

/-- UpdateCache pairs each row's density value with the row index
(the DensityVal objects pushed in table order). -/
def densityIdPairs (density : List ℚ) : List (ℚ × Nat) :=
  density.enum.map (fun p => (p.2, p.1))

/-- std::sort over DensityVal: a permutation sorted by descending density
(tie order is unspecified in C++; insertion sort is one valid refinement). -/
def sortDensities (density : List ℚ) : List (ℚ × Nat) :=
  List.insertionSort densGE (densityIdPairs density)

/-! ### The collection loop of UpdateCache -/

/-- The per-point loop of UpdateCache: accumulate the sorted densities; a
point joins the median set when the running sum is still below the median
threshold, joins the q3 set and continues when below the q3 threshold, and
otherwise the loop breaks. Returns (median fed points, q3 fed points). -/
def collectBags (pts : List Point) (medianD q3D : ℚ) :
    List (ℚ × Nat) → ℚ → List Point × List Point
  | [], _ => ([], [])
  | (d, i) :: rest, a =>
    let pt := pts.getD i (0, 0)
    let med : List Point := if a + d < medianD then [pt] else []
    if a + d < q3D then
      let r := collectBags pts medianD q3D rest (a + d)
      (med ++ r.1, pt :: r.2)
    else
      (med, [])

/-- The spec's description of the collection: walk the sorted order, keep a
point while the cumulative mass is below the threshold, and stop the set's
growth permanently once the threshold is crossed. -/
def clipAccum (pts : List Point) (thr : ℚ) :
    List (ℚ × Nat) → ℚ → List Point
  | [], _ => []
  | (d, i) :: rest, a =>
    if a + d < thr then pts.getD i (0, 0) :: clipAccum pts thr rest (a + d) else []

/-! ### The convex hull collaborator -/

/-- Cross product of vectors oa and ob; positive when the turn o-a-b is
counter-clockwise. -/
def cross (o a b : Point) : ℚ :=
  (a.1 - o.1) * (b.2 - o.2) - (a.2 - o.2) * (b.1 - o.1)

/-- Modelled from the spec: starting vertex for the hull walk, the
lowest-then-leftmost point of the set. -/
def lowerLeft : List Point → Option Point
  | [] => none
  | p :: rest =>
    some (rest.foldl
      (fun q r => if r.2 < q.2 ∨ (r.2 = q.2 ∧ r.1 < q.1) then r else q) p)

/-- Modelled from the spec: one gift-wrapping step, the most clockwise-free
candidate seen from p. -/
def nextHull (pts : List Point) (p : Point) : Point :=
  pts.foldl (fun q r => if q = p ∨ (r ≠ p ∧ r ≠ q ∧ cross p q r < 0) then r else q) p

/-- Modelled from the spec: the gift-wrapping walk, bounded by the fuel. -/
def jarvisAux (pts : List Point) (start : Point) : Nat → Point → List Point
  | 0, _ => []
  | n + 1, p =>
    let q := nextHull pts p
    if q = start ∨ q = p then [] else q :: jarvisAux pts start n q

/-- Modelled from the spec: vtkPointsProjectedHull's GetSizeCCWHullZ and
GetCCWHullZ, the convex-hull utility of the toolkit that is not under src/.
It extracts the counter-clockwise ordered boundary polygon of a 2D point
set; a gift-wrapping walk returning at most as many vertices as input
points. -/
def getCCWHullZ (pts : List Point) : List Point :=
  match lowerLeft pts with
  | none => []
  | some s => s :: jarvisAux pts s (pts.length - 1) s

/-- The hull finalisation of UpdateCache for one bag: more than two fed
points are replaced by their CCW hull closed by repeating the first vertex;
one or two points are stored directly; none leaves the polygon empty. -/
def finalizeBag (fed : List Point) : List Point :=
  if 2 < fed.length then
    let h := getCCWHullZ fed
    h ++ [h.headD (0, 0)]
  else
    fed

/-! ### UpdateCache -/

/-- vtkPlotBag::UpdateCache. The superclass call is modelled from the spec:
the base cache rebuild fails exactly when there is no input table (and on
success leaves this->Points as the point cache checked next). Returns the
new state and the boolean result. -/
def UpdateCache (s : PlotBag) : PlotBag × Bool :=
  match s.table with
  | none => (s, false)
  | some table =>
    let s1 := { s with medianPoints := [], q3Points := [] }
    match s.points with
    | none => (s1, false)
    | some pts =>
      match (table.getColumn 2).bind Column.asDataArray with
      | none => (s1, false)
      | some density =>
        let ids := sortDensities density
        let medianD : ℚ := (1 / 2 : ℚ) * density.sum
        let q3D : ℚ := (99 / 100 : ℚ) * density.sum
        let fed := collectBags pts medianD q3D ids 0
        ({ s1 with
            medianPoints := finalizeBag fed.1
            q3Points := finalizeBag fed.2 }, true)

/-- The density column UpdateCache resolves: the table's column at the
density index used by the code (index 2), down-cast to a data array. -/
def resolvedDensity (s : PlotBag) : Option (List ℚ) :=
  s.table.bind (fun t => (t.getColumn 2).bind Column.asDataArray)

/-! ### SetInputData overloads -/

/-- vtkPlotBag::SetInputData(table, xColumn, yColumn, densityColumn): binds
the table and sets the three arrays to process, and clears AutoLabels. It
does not touch UseIndexForXSeries. -/
def SetInputDataXYD (s : PlotBag) (t : Table) (x y d : String) : PlotBag :=
  { s with
      table := some t
      xArray := some x
      yArray := some y
      densityArray := some d
      autoLabels := none }

/-- vtkPlotBag::SetInputData(table, yColumn, densityColumn): validates that
the density and y columns have the same number of tuples, logging an error
and returning unchanged otherwise; on success it delegates to the
four-argument overload with the y column doubling as x, then enables
UseIndexForXSeries. The two GetColumnByName results are dereferenced
without a null check, so the call is undefined (modelled as none) when
either named column is missing. The boolean reports whether the
mismatched-length error was logged. -/
def SetInputDataYD (s : PlotBag) (t : Table) (y d : String) :
    Option (PlotBag × Bool) :=
  match t.getColumnByName d, t.getColumnByName y with
  | some dc, some yc =>
    if dc.numberOfTuples ≠ yc.numberOfTuples then
      some (s, true)
    else
      some ({ SetInputDataXYD s t y y d with useIndexForXSeries := true }, false)
  | _, _ => none

/-! ### Paint and PaintLegend -/

/-- Which pen a draw pass applies. -/
inductive PenKind where
  | linePen
  | pointPen
deriving DecidableEq

/-- One call into the 2D drawing context. -/
inductive DrawOp where
  | applyPen : PenKind → DrawOp
  | applyBrush : Brush → DrawOp
  | polygon : List Point → DrawOp
  | line : List Point → DrawOp
  | rect : ℚ → ℚ → ℚ → ℚ → DrawOp
deriving DecidableEq

/-- The darkened bag color: each RGB byte halved (integer division). -/
def halfBrush (b : Brush) : Brush :=
  { b with red := b.red / 2, green := b.green / 2, blue := b.blue / 2 }

/-- The polygon-or-line shape rule shared by the two bags: a polygon when
more than two cached vertices, a line when exactly two, nothing otherwise. -/
def bagDraw (cached : List Point) : List DrawOp :=
  if 2 < cached.length then [DrawOp.polygon cached]
  else if cached.length = 2 then [DrawOp.line cached]
  else []

/-- vtkPlotBag::Paint. Returns the new state, the boolean result, and the
sequence of draw calls issued. The delegated superclass paint is modelled
from the spec: it draws the individual points with the point pen and does
not touch the shared brush. -/
def Paint (s : PlotBag) : PlotBag × Bool × List DrawOp :=
  if s.visible = false ∨ s.points = none ∨ s.table = none then
    (s, false, [])
  else if s.bagVisible then
    let bcolor := s.brush
    let b1 : Brush := { halfBrush bcolor with opacity := 255 }
    let b2 : Brush := { bcolor with opacity := 128 }
    ({ s with brush := b2 }, true,
      [DrawOp.applyPen PenKind.linePen, DrawOp.applyBrush b1] ++
        bagDraw s.q3Points ++
        (DrawOp.applyBrush b2 :: bagDraw s.medianPoints) ++
        [DrawOp.applyPen PenKind.pointPen])
  else
    (s, true, [DrawOp.applyPen PenKind.pointPen])

/-- vtkPlotBag::PaintLegend: draws the two legend swatch rectangles, saving
the brush color and opacity on entry and restoring both before returning. -/
def PaintLegend (s : PlotBag) (rx ry rw rh : ℚ) : PlotBag × Bool × List DrawOp :=
  let bcolor := s.brush
  let opacity := s.brush.opacity
  let b1 : Brush := { halfBrush bcolor with opacity := 255 }
  let b2 : Brush := { bcolor with opacity := 128 }
  ({ s with brush := { b2 with opacity := opacity } }, true,
    [DrawOp.applyPen PenKind.linePen, DrawOp.applyBrush b1,
      DrawOp.rect rx ry rw rh, DrawOp.applyBrush b2,
      DrawOp.rect (rx + rw / 2) ry (rw / 2) rh])

/-! ### Tooltip label -/

/-- The environment GetTooltipLabel reads. The numeric formatters are
modelled from the spec as opaque parameters: fmtX and fmtY stand for
this->GetNumber with the x and y axis respectively (the plot's numeric
formatting, external to this file's source), and varStr stands for
vtkVariant::ToString applied to a density value. -/
structure TooltipEnv where
  /-- this->GetNumber(v, this->XAxis). -/
  fmtX : ℚ → String
  /-- this->GetNumber(v, this->YAxis). -/
  fmtY : ℚ → String
  /-- vtkVariant::ToString of a numeric value. -/
  varStr : ℚ → String
  /-- this->GetLabel(). -/
  label : String
  /-- this->IndexedLabels, if set. -/
  indexedLabels : Option (List String)
  /-- The ColName column of the input table, if present. -/
  colNameCol : Option Column
  /-- The resolved density data array, if any. -/
  density : Option (List ℚ)

/-- A column value rendered through vtkVariant::ToString. -/
def columnVariant (varStr : ℚ → String) (c : Column) (i : Nat) : String :=
  match c with
  | .data _ v => varStr (v.getD i 0)
  | .str _ v => v.getD i ""

/-- One recognized escape code substitution (the switch of
GetTooltipLabel); an unknown code re-emits the literal percent and char. -/
def tooltipSubst (env : TooltipEnv) (pos : Point) (seriesIndex : ℤ) (c : Char) :
    String :=
  if c = 'x' then env.fmtX pos.1
  else if c = 'y' then env.fmtY pos.2
  else if c = 'z' then
    match env.density with
    | some ds => env.varStr (ds.getD seriesIndex.toNat 0)
    | none => "?"
  else if c = 'i' then
    match env.indexedLabels with
    | some ls =>
      if 0 ≤ seriesIndex ∧ seriesIndex < (ls.length : ℤ) then
        ls.getD seriesIndex.toNat ""
      else ""
    | none => ""
  else if c = 'l' then env.label
  else if c = 'c' then toString seriesIndex
  else if c = 'C' then
    match env.colNameCol with
    | some col => columnVariant env.varStr col seriesIndex.toNat
    | none => "?"
  else "%" ++ String.singleton c

/-- The left-to-right scan of the format string with the escape flag. -/
def tooltipScan (env : TooltipEnv) (pos : Point) (seriesIndex : ℤ) :
    List Char → Bool → String
  | [], _ => ""
  | c :: rest, true =>
    tooltipSubst env pos seriesIndex c ++ tooltipScan env pos seriesIndex rest false
  | c :: rest, false =>
    if c = '%' then tooltipScan env pos seriesIndex rest true
    else String.singleton c ++ tooltipScan env pos seriesIndex rest false

/-- The default tooltip format installed by the constructor. -/
def TooltipDefaultLabelFormat : String := "%C, %l (%x, %y): %z"

/-- vtkPlotBag::GetTooltipLabel: chooses the configured format (or the
default when empty) and scans it. -/
def GetTooltipLabel (env : TooltipEnv) (tooltipLabelFormat : String)
    (pos : Point) (seriesIndex : ℤ) : String :=
  let format :=
    if tooltipLabelFormat = "" then TooltipDefaultLabelFormat else tooltipLabelFormat
  tooltipScan env pos seriesIndex format.toList false

/-! ### Derived quantities and claim conclusions -/

/-- Sum of the density components of density-id pairs. -/
def sumFst (l : List (ℚ × Nat)) : ℚ := (l.map Prod.fst).sum

/-- The median-bag points fed to the hull builder by UpdateCache. -/
def medianFed (pts : List Point) (density : List ℚ) : List Point :=
  (collectBags pts ((1 / 2 : ℚ) * density.sum) ((99 / 100 : ℚ) * density.sum)
    (sortDensities density) 0).1

/-- The q3-bag points fed to the hull builder by UpdateCache. -/
def q3Fed (pts : List Point) (density : List ℚ) : List Point :=
  (collectBags pts ((1 / 2 : ℚ) * density.sum) ((99 / 100 : ℚ) * density.sum)
    (sortDensities density) 0).2

/-- Conclusion of claim C1: the cache rebuild pairs densities with row
indices, sorts them descending, and the two fed sets are exactly the
points collected while the cumulative mass stays below half (resp. 99
hundredths) of the total, each set stopping for good at its threshold. -/
def C1Concl (s : PlotBag) (pts : List Point) (density : List ℚ) : Prop :=
  List.Perm (sortDensities density) (densityIdPairs density) ∧
  (sortDensities density).Sorted densGE ∧
  medianFed pts density =
    clipAccum pts ((1 / 2 : ℚ) * density.sum) (sortDensities density) 0 ∧
  q3Fed pts density =
    clipAccum pts ((99 / 100 : ℚ) * density.sum) (sortDensities density) 0 ∧
  (UpdateCache s).1.medianPoints = finalizeBag (medianFed pts density) ∧
  (UpdateCache s).1.q3Points = finalizeBag (q3Fed pts density)

/-- Conclusion of claim C2 for one bag: empty set gives empty polygon, one
or two points pass through unchanged, more than two yield the closed CCW
hull whose first vertex equals its last. -/
def C2BagConcl (out fed : List Point) : Prop :=
  (fed = [] → out = []) ∧
  (fed.length = 1 ∨ fed.length = 2 → out = fed) ∧
  (2 < fed.length →
    out = getCCWHullZ fed ++ [(getCCWHullZ fed).headD (0, 0)] ∧
    out.head? = out.getLast?)

/-- Conclusion of claim C2 for the two bags of a successful rebuild. -/
def C2Concl (s : PlotBag) (pts : List Point) (density : List ℚ) : Prop :=
  C2BagConcl (UpdateCache s).1.medianPoints (medianFed pts density) ∧
  C2BagConcl (UpdateCache s).1.q3Points (q3Fed pts density)

/-- Conclusion of claim C3: the median fed set is a prefix of the q3 fed
set, hence every median point is also fed to the q3 hull builder. -/
def C3Concl (pts : List Point) (density : List ℚ) : Prop :=
  medianFed pts density <+: q3Fed pts density ∧
  ∀ p ∈ medianFed pts density, p ∈ q3Fed pts density

/-- Conclusion of claim C4: the rebuild reports false exactly on a missing
table, missing point cache, or unresolvable density column at the density
index, and in particular when the table has at most two columns. -/
def C4Concl (s : PlotBag) : Prop :=
  ((UpdateCache s).2 = false ↔
    (s.table = none ∨ s.points = none ∨ resolvedDensity s = none)) ∧
  (∀ t, s.table = some t → t.columns.length ≤ 2 → (UpdateCache s).2 = false)

/-- Conclusion of claim C7 (amended): the y-plus-density overload enables
index-based x on its success path, while the explicit-x overload leaves
the flag unchanged. -/
def C7Concl : Prop :=
  (∀ (s : PlotBag) (t : Table) (y d : String) (yc dc : Column),
      t.getColumnByName d = some dc → t.getColumnByName y = some yc →
      dc.numberOfTuples = yc.numberOfTuples →
      SetInputDataYD s t y d =
        some ({ SetInputDataXYD s t y y d with useIndexForXSeries := true }, false)) ∧
  (∀ (s : PlotBag) (t : Table) (x y d : String),
      (SetInputDataXYD s t x y d).useIndexForXSeries = s.useIndexForXSeries)

/-- Conclusion of claim C8: each cached bag polygon has at most one vertex
more than the point set fed to its hull builder. -/
def C8Concl (s : PlotBag) (pts : List Point) (density : List ℚ) : Prop :=
  ((UpdateCache s).1.medianPoints).length ≤ (medianFed pts density).length + 1 ∧
  ((UpdateCache s).1.q3Points).length ≤ (q3Fed pts density).length + 1

/-- Conclusion of claim C9: when Paint draws the bags it returns with the
shared brush at opacity 128 and its RGB restored, while PaintLegend
restores the whole brush, opacity included. -/
def C9Concl (s : PlotBag) : Prop :=
  ((Paint s).1.brush.opacity = 128 ∧
   (Paint s).1.brush.red = s.brush.red ∧
   (Paint s).1.brush.green = s.brush.green ∧
   (Paint s).1.brush.blue = s.brush.blue) ∧
  (∀ rx ry rw rh : ℚ, (PaintLegend s rx ry rw rh).1.brush = s.brush)

/-- Conclusion of claim C10: the y-plus-density configuration call is
well-defined exactly when both named columns exist on the table. -/
def C10Concl : Prop :=
  ∀ (s : PlotBag) (t : Table) (y d : String),
    (SetInputDataYD s t y d).isSome = true ↔
      ((t.getColumnByName d).isSome = true ∧ (t.getColumnByName y).isSome = true)

/-- Conclusion of claim C6 (amended): with format percent-x comma
percent-y comma percent-z, the x and y components are rendered by the
plot's numeric formatting for the matching axis, while the z component is
rendered by the variant-to-string conversion of the density value. -/
def C6Concl : Prop :=
  ∀ (env : TooltipEnv) (pos : Point) (si : ℤ) (ds : List ℚ),
    env.density = some ds →
    GetTooltipLabel env "%x,%y,%z" pos si =
      env.fmtX pos.1 ++ "," ++ env.fmtY pos.2 ++ "," ++
        env.varStr (ds.getD si.toNat 0)

/-! ### Concrete witness inputs -/

/-- A small sample table with x, y and density columns. -/
def sampleTable : Table :=
  ⟨[Column.data "x" [0, 1, 2, 3], Column.data "y" [0, 1, 4, 9],
    Column.data "dens" [1, 5, 3, 2]]⟩

/-- The sample point cache matching sampleTable. -/
def samplePts : List Point := [(0, 0), (1, 1), (2, 4), (3, 9)]

/-- A fully configured sample plot state. -/
def sampleBag : PlotBag :=
  { table := some sampleTable
    points := some samplePts
    medianPoints := []
    q3Points := []
    visible := true
    bagVisible := true
    brush := ⟨255, 0, 0, 255⟩
    useIndexForXSeries := false
    xArray := some "x"
    yArray := some "y"
    densityArray := some "dens"
    autoLabels := none }

/-- The sample state with index-based x already enabled. -/
def flagBag : PlotBag := { sampleBag with useIndexForXSeries := true }

/-- A table whose density and y columns have different lengths. -/
def mismatchTable : Table :=
  ⟨[Column.data "y" [1, 2], Column.data "dens" [1]]⟩

/-- A state whose table has no column at the density index 2. -/
def brokenBag : PlotBag :=
  { sampleBag with table := some ⟨[Column.data "x" [0], Column.data "y" [0]]⟩ }

/-- A tooltip environment with distinguishable constant formatters. -/
def constEnv : TooltipEnv :=
  { fmtX := fun _ => "X"
    fmtY := fun _ => "Y"
    varStr := fun _ => "V"
    label := "L"
    indexedLabels := none
    colNameCol := none
    density := some [7] }

/-! ### Helper lemmas -/

lemma sumFst_cons (d : ℚ) (i : Nat) (tl : List (ℚ × Nat)) :
    sumFst ((d, i) :: tl) = d + sumFst tl := by
  simp [sumFst]

lemma sumFst_nonpos (l : List (ℚ × Nat)) (h : ∀ x ∈ l, x.1 ≤ 0) :
    sumFst l ≤ 0 := by
  induction l with
  | nil => simp [sumFst]
  | cons hd tl ih =>
    obtain ⟨d, i⟩ := hd
    rw [sumFst_cons]
    have h1 : d ≤ 0 := h (d, i) (List.mem_cons_self _ _)
    have h2 : sumFst tl ≤ 0 := ih (fun x hx => h x (List.mem_cons_of_mem _ hx))
    linarith

lemma sumFst_le_head (l : List (ℚ × Nat)) (c : ℚ) (hne : l ≠ [])
    (h : ∀ x ∈ l, x.1 ≤ c) (hc : c ≤ 0) : sumFst l ≤ c := by
  induction l with
  | nil => exact absurd rfl hne
  | cons hd tl ih =>
    obtain ⟨d, i⟩ := hd
    rw [sumFst_cons]
    have h1 : d ≤ c := h (d, i) (List.mem_cons_self _ _)
    cases tl with
    | nil => simpa [sumFst] using h1
    | cons b tl2 =>
      have h2 : sumFst (b :: tl2) ≤ c :=
        ih (by simp) (fun x hx => h x (List.mem_cons_of_mem _ hx))
      linarith

lemma sumFst_densityIdPairs (density : List ℚ) :
    sumFst (densityIdPairs density) = density.sum := by
  have h : (Prod.fst ∘ fun p : Nat × ℚ => (p.2, p.1)) = Prod.snd := rfl
  simp only [sumFst, densityIdPairs, List.map_map, h, List.enum_map_snd]

lemma sortDensities_perm (density : List ℚ) :
    List.Perm (sortDensities density) (densityIdPairs density) :=
  List.perm_insertionSort densGE (densityIdPairs density)

lemma sortDensities_sorted (density : List ℚ) :
    (sortDensities density).Sorted densGE :=
  List.sorted_insertionSort densGE (densityIdPairs density)

lemma sumFst_sortDensities (density : List ℚ) :
    sumFst (sortDensities density) = density.sum := by
  have h2 : sumFst (sortDensities density) = sumFst (densityIdPairs density) :=
    ((sortDensities_perm density).map Prod.fst).sum_eq
  rw [h2, sumFst_densityIdPairs]

lemma clipAccum_eq_nil (pts : List Point) (M Q a : ℚ) (l : List (ℚ × Nat))
    (hs : l.Sorted densGE)
    (hM : M = (1 / 2 : ℚ) * (a + sumFst l))
    (hQ : Q = (99 / 100 : ℚ) * (a + sumFst l))
    (hMa : M ≤ a) (haQ : a < Q) : clipAccum pts M l a = [] := by
  cases l with
  | nil => rfl
  | cons hd tl =>
    obtain ⟨d, i⟩ := hd
    rw [sumFst_cons] at hM hQ
    simp only [clipAccum]
    rw [if_neg]
    intro hlt
    have hd0 : d < 0 := by linarith
    have htl : ∀ x ∈ tl, x.1 ≤ 0 := by
      intro x hx
      have := (List.sorted_cons.mp hs).1 x hx
      simp only [densGE] at this
      linarith
    have hsum : sumFst tl ≤ 0 := sumFst_nonpos tl htl
    linarith

lemma collectBags_snd_eq_clip (pts : List Point) (M Q : ℚ) :
    ∀ (l : List (ℚ × Nat)) (a : ℚ),
      (collectBags pts M Q l a).2 = clipAccum pts Q l a := by
  intro l
  induction l with
  | nil => intro a; rfl
  | cons hd tl ih =>
    obtain ⟨d, i⟩ := hd
    intro a
    simp only [collectBags, clipAccum]
    by_cases hq : a + d < Q
    · simp [hq, ih (a + d)]
    · simp [hq]

lemma collectBags_fst_eq_clip (pts : List Point) (M Q : ℚ) :
    ∀ (l : List (ℚ × Nat)) (a : ℚ), l.Sorted densGE →
      M = (1 / 2 : ℚ) * (a + sumFst l) →
      Q = (99 / 100 : ℚ) * (a + sumFst l) →
      (∀ x ∈ l, 0 < x.1 → 0 ≤ a) →
      (a = 0 ∨ a < Q) →
      (collectBags pts M Q l a).1 = clipAccum pts M l a := by
  intro l
  induction l with
  | nil => intro a _ _ _ _ _; rfl
  | cons hd tl ih =>
    obtain ⟨d, i⟩ := hd
    intro a hs hM hQ hpos hdisj
    rw [sumFst_cons] at hM hQ
    have hstl : tl.Sorted densGE := (List.sorted_cons.mp hs).2
    have hdall : ∀ x ∈ tl, x.1 ≤ d := by
      intro x hx
      have := (List.sorted_cons.mp hs).1 x hx
      simpa [densGE] using this
    have hM2 : M = (1 / 2 : ℚ) * ((a + d) + sumFst tl) := by rw [hM]; ring_nf
    have hQ2 : Q = (99 / 100 : ℚ) * ((a + d) + sumFst tl) := by rw [hQ]; ring_nf
    have hpos2 : ∀ x ∈ tl, 0 < x.1 → 0 ≤ a + d := by
      intro x hx hx0
      have hda : 0 < d := lt_of_lt_of_le hx0 (hdall x hx)
      have := hpos (d, i) (List.mem_cons_self _ _) hda
      linarith
    simp only [collectBags, clipAccum]
    by_cases hq : a + d < Q
    · by_cases hm : a + d < M
      · simp only [hq, hm, if_true]
        rw [ih (a + d) hstl hM2 hQ2 hpos2 (Or.inr hq)]
        simp
      · simp only [hq, hm, if_true, if_false]
        rw [ih (a + d) hstl hM2 hQ2 hpos2 (Or.inr hq)]
        rw [clipAccum_eq_nil pts M Q (a + d) tl hstl hM2 hQ2 (le_of_not_lt hm) hq]
        simp
    · by_cases hm : a + d < M
      · exfalso
        rcases hdisj with ha0 | haq
        · subst ha0
          cases tl with
          | nil =>
            simp [sumFst] at hM2 hQ2
            rw [hM2] at hm
            rw [hQ2] at hq
            have : d < 0 := by linarith
            exact hq (by linarith)
          | cons b tl2 =>
            have hQle : Q ≤ 0 + d := le_of_not_lt hq
            rw [hM2] at hm
            rw [hQ2] at hQle
            have hd0 : d < 0 := by linarith
            have hsum : sumFst (b :: tl2) ≤ d :=
              sumFst_le_head _ d (by simp) hdall (le_of_lt hd0)
            linarith
        · have hda : 0 < d := by linarith [le_of_not_lt hq]
          have ha0 : 0 ≤ a := hpos (d, i) (List.mem_cons_self _ _) hda
          have hQle : Q ≤ a + d := le_of_not_lt hq
          rw [hM2] at hm
          rw [hQ2] at hQle
          linarith
      · simp [hq, hm]

lemma medianFed_eq_clip (pts : List Point) (density : List ℚ) :
    medianFed pts density =
      clipAccum pts ((1 / 2 : ℚ) * density.sum) (sortDensities density) 0 := by
  apply collectBags_fst_eq_clip
  · exact sortDensities_sorted density
  · rw [sumFst_sortDensities, zero_add]
  · rw [sumFst_sortDensities, zero_add]
  · intro x _ _; exact le_refl 0
  · exact Or.inl rfl

lemma q3Fed_eq_clip (pts : List Point) (density : List ℚ) :
    q3Fed pts density =
      clipAccum pts ((99 / 100 : ℚ) * density.sum) (sortDensities density) 0 :=
  collectBags_snd_eq_clip pts _ _ (sortDensities density) 0

lemma updateCache_success (s : PlotBag) (t : Table) (pts : List Point)
    (density : List ℚ)
    (h1 : s.table = some t) (h2 : s.points = some pts)
    (h3 : (t.getColumn 2).bind Column.asDataArray = some density) :
    UpdateCache s =
      ({ s with
          medianPoints := finalizeBag (medianFed pts density)
          q3Points := finalizeBag (q3Fed pts density) }, true) := by
  simp only [UpdateCache, h1, h2, h3, medianFed, q3Fed]

/-- C1: for every input table with x, y and density columns, UpdateCache
pairs each row's density with its row index, sorts the pairs in descending
density order, accumulates mass over that order, and collects coordinates
into the median set while the cumulative mass is below half of the total
and into the q3 set while it is below 99 hundredths of the total, each set
permanently stopping its growth once its threshold is crossed. -/
theorem updateCache_sorts_and_clips (s : PlotBag) (t : Table)
    (pts : List Point) (density : List ℚ)
    (h1 : s.table = some t) (h2 : s.points = some pts)
    (h3 : (t.getColumn 2).bind Column.asDataArray = some density) :
    C1Concl s pts density := by
  refine ⟨sortDensities_perm density, sortDensities_sorted density,
    medianFed_eq_clip pts density, q3Fed_eq_clip pts density, ?_, ?_⟩
  · rw [updateCache_success s t pts density h1 h2 h3]
  · rw [updateCache_success s t pts density h1 h2 h3]

/-- Witness for C1 at a concrete table of four samples. -/
theorem updateCache_sorts_and_clips_witness :
    C1Concl sampleBag samplePts [1, 5, 3, 2] :=
  updateCache_sorts_and_clips sampleBag sampleTable samplePts [1, 5, 3, 2]
    rfl rfl rfl

lemma clipAccum_prefix_mono (pts : List Point) (M Q : ℚ) (hMQ : M ≤ Q) :
    ∀ (l : List (ℚ × Nat)) (a : ℚ),
      clipAccum pts M l a <+: clipAccum pts Q l a := by
  intro l
  induction l with
  | nil => intro a; exact List.nil_prefix
  | cons hd tl ih =>
    obtain ⟨d, i⟩ := hd
    intro a
    simp only [clipAccum]
    by_cases hm : a + d < M
    · have hq : a + d < Q := lt_of_lt_of_le hm hMQ
      simp only [hm, hq, if_true]
      obtain ⟨r, hr⟩ := ih (a + d)
      exact ⟨r, by rw [List.cons_append, hr]⟩
    · simp only [hm, if_false]
      exact List.nil_prefix

/-- C3: with non-negative densities, the median-bag fed set is a prefix of
the q3-bag fed set in the cumulative descending-density order, so every
point fed to the median hull builder is also fed to the q3 hull builder. -/
theorem median_fed_within_q3_fed (pts : List Point) (density : List ℚ)
    (h : ∀ d ∈ density, 0 ≤ d) : C3Concl pts density := by
  have hsum : 0 ≤ density.sum := List.sum_nonneg h
  have hMQ : (1 / 2 : ℚ) * density.sum ≤ (99 / 100 : ℚ) * density.sum := by
    linarith
  have hpre : medianFed pts density <+: q3Fed pts density := by
    rw [medianFed_eq_clip, q3Fed_eq_clip]
    exact clipAccum_prefix_mono pts _ _ hMQ (sortDensities density) 0
  exact ⟨hpre, fun p hp => hpre.subset hp⟩

/-- Witness for C3 at the concrete sample table. -/
theorem median_fed_within_q3_fed_witness :
    C3Concl samplePts [1, 5, 3, 2] :=
  median_fed_within_q3_fed samplePts [1, 5, 3, 2] (by decide)

lemma jarvisAux_length_le (pts : List Point) (start : Point) :
    ∀ (n : Nat) (p : Point), (jarvisAux pts start n p).length ≤ n := by
  intro n
  induction n with
  | zero => intro p; simp [jarvisAux]
  | succ n ih =>
    intro p
    simp only [jarvisAux]
    by_cases hq : nextHull pts p = start ∨ nextHull pts p = p
    · simp [hq]
    · simp only [hq, if_false, List.length_cons]
      exact Nat.succ_le_succ (ih _)

lemma getCCWHullZ_length_le (pts : List Point) :
    (getCCWHullZ pts).length ≤ pts.length := by
  cases pts with
  | nil => simp [getCCWHullZ, lowerLeft]
  | cons p rest =>
    simp only [getCCWHullZ, lowerLeft, List.length_cons]
    exact Nat.succ_le_succ (by simpa using jarvisAux_length_le _ _ rest.length _)

lemma getCCWHullZ_ne_nil (pts : List Point) (h : pts ≠ []) :
    getCCWHullZ pts ≠ [] := by
  cases pts with
  | nil => exact absurd rfl h
  | cons p rest => simp [getCCWHullZ, lowerLeft]

lemma closed_head_eq_last (h : List Point) (hne : h ≠ []) :
    (h ++ [h.headD (0, 0)]).head? = (h ++ [h.headD (0, 0)]).getLast? := by
  cases h with
  | nil => exact absurd rfl hne
  | cons a t =>
    rw [List.getLast?_concat]
    simp

lemma finalizeBag_bagConcl (fed : List Point) :
    C2BagConcl (finalizeBag fed) fed := by
  refine ⟨?_, ?_, ?_⟩
  · intro h; subst h; rfl
  · intro h
    have hn : ¬ 2 < fed.length := by rcases h with h | h <;> omega
    simp [finalizeBag, hn]
  · intro h
    constructor
    · simp [finalizeBag, h]
    · have hne : fed ≠ [] := by
        intro he
        subst he
        simp at h
      simp only [finalizeBag, h, if_true]
      exact closed_head_eq_last _ (getCCWHullZ_ne_nil fed hne)

/-- C2: after a successful cache rebuild, a bag with no collected point has
an empty polygon, one with one or two points stores them unchanged, and
one with more than two stores the closed CCW hull, whose first vertex
equals its last. -/
theorem updateCache_bag_outputs (s : PlotBag) (t : Table)
    (pts : List Point) (density : List ℚ)
    (h1 : s.table = some t) (h2 : s.points = some pts)
    (h3 : (t.getColumn 2).bind Column.asDataArray = some density) :
    C2Concl s pts density := by
  unfold C2Concl
  rw [updateCache_success s t pts density h1 h2 h3]
  exact ⟨finalizeBag_bagConcl _, finalizeBag_bagConcl _⟩

/-- Witness for C2 at the concrete sample table (its q3 bag collects three
points and exercises the hull path). -/
theorem updateCache_bag_outputs_witness :
    C2Concl sampleBag samplePts [1, 5, 3, 2] :=
  updateCache_bag_outputs sampleBag sampleTable samplePts [1, 5, 3, 2]
    rfl rfl rfl

lemma finalizeBag_length_le (fed : List Point) :
    (finalizeBag fed).length ≤ fed.length + 1 := by
  by_cases h : 2 < fed.length
  · simp only [finalizeBag, h, if_true]
    rw [List.length_append]
    have := getCCWHullZ_length_le fed
    simp only [List.length_cons, List.length_nil]
    omega
  · simp [finalizeBag, h]

/-- C8: each cached bag polygon of a successful rebuild has at most one
vertex more than the point set fed to its hull builder. -/
theorem bag_polygon_size_bound (s : PlotBag) (t : Table)
    (pts : List Point) (density : List ℚ)
    (h1 : s.table = some t) (h2 : s.points = some pts)
    (h3 : (t.getColumn 2).bind Column.asDataArray = some density) :
    C8Concl s pts density := by
  unfold C8Concl
  rw [updateCache_success s t pts density h1 h2 h3]
  exact ⟨finalizeBag_length_le _, finalizeBag_length_le _⟩

/-- Witness for C8 at the concrete sample table. -/
theorem bag_polygon_size_bound_witness :
    C8Concl sampleBag samplePts [1, 5, 3, 2] :=
  bag_polygon_size_bound sampleBag sampleTable samplePts [1, 5, 3, 2]
    rfl rfl rfl

/-- C4: the cache rebuild returns false exactly when there is no input
table, no point cache, or no density data array resolvable at the density
column index; in particular a table with no column at that index makes it
return false. -/
theorem updateCache_false_iff (s : PlotBag) : C4Concl s := by
  constructor
  · cases hot : s.table with
    | none => simp [UpdateCache, resolvedDensity, hot]
    | some t =>
      cases hop : s.points with
      | none => simp [UpdateCache, resolvedDensity, hot, hop]
      | some pts =>
        cases h : (t.getColumn 2).bind Column.asDataArray with
        | none => simp [UpdateCache, resolvedDensity, hot, hop, h]
        | some density => simp [UpdateCache, resolvedDensity, hot, hop, h]
  · intro t ht hlen
    have hcol : t.getColumn 2 = none := by
      rw [Table.getColumn, List.get?_eq_none]
      exact hlen
    cases hop : s.points with
    | none => simp [UpdateCache, ht, hop]
    | some pts => simp [UpdateCache, ht, hop, hcol]

/-- Witness for C4 at a state whose table lacks a third column. -/
theorem updateCache_false_iff_witness : C4Concl brokenBag :=
  updateCache_false_iff brokenBag

/-- C5: configuring via the y-plus-density overload with columns of
different lengths logs an error and returns with the plot state untouched. -/
theorem setInputData_mismatch_keeps_state (s : PlotBag) (t : Table)
    (y d : String) (yc dc : Column)
    (hy : t.getColumnByName y = some yc)
    (hd : t.getColumnByName d = some dc)
    (hne : dc.numberOfTuples ≠ yc.numberOfTuples) :
    SetInputDataYD s t y d = some (s, true) := by
  simp [SetInputDataYD, hy, hd, hne]

/-- Witness for C5 at a concrete mismatched table. -/
theorem setInputData_mismatch_keeps_state_witness :
    SetInputDataYD sampleBag mismatchTable "y" "dens" = some (sampleBag, true) :=
  setInputData_mismatch_keeps_state sampleBag mismatchTable "y" "dens"
    (Column.data "y" [1, 2]) (Column.data "dens" [1]) rfl rfl (by decide)

/-- Counterexample for C7 as stated: after the overload with an explicit x
column, index-based x is not disabled; a state that had it enabled keeps
it enabled. -/
theorem setInputData_explicit_x_flag_counterexample :
    ¬ ((SetInputDataXYD flagBag sampleTable "x" "y" "dens").useIndexForXSeries
        = false) := by
  decide

/-- C7 (amended): the y-plus-density overload enables index-based x on its
success path, while the explicit-x overload leaves the flag unchanged
rather than disabling it. -/
theorem useIndexForXSeries_overloads : C7Concl := by
  constructor
  · intro s t y d yc dc hd hy heq
    simp [SetInputDataYD, hy, hd, heq]
  · intro s t x y d
    rfl

/-- Witness for C7 at the concrete sample table. -/
theorem useIndexForXSeries_overloads_witness :
    SetInputDataYD sampleBag sampleTable "y" "dens" =
      some ({ SetInputDataXYD sampleBag sampleTable "y" "y" "dens" with
                useIndexForXSeries := true }, false) :=
  useIndexForXSeries_overloads.1 sampleBag sampleTable "y" "dens"
    (Column.data "y" [0, 1, 4, 9]) (Column.data "dens" [1, 5, 3, 2])
    rfl rfl (by decide)

/-- C10: the y-plus-density overload dereferences both named columns
without a null check, so the call is well-defined exactly when both
columns exist; under that precondition the branch is safe. -/
theorem setInputDataYD_defined_iff : C10Concl := by
  intro s t y d
  cases hd : t.getColumnByName d with
  | none => simp [SetInputDataYD, hd]
  | some dc =>
    cases hy : t.getColumnByName y with
    | none => simp [SetInputDataYD, hd, hy]
    | some yc =>
      by_cases hne : dc.numberOfTuples ≠ yc.numberOfTuples <;>
        simp [SetInputDataYD, hd, hy, hne]

/-- Witness for C10 at the concrete sample table. -/
theorem setInputDataYD_defined_iff_witness :
    (SetInputDataYD sampleBag sampleTable "y" "dens").isSome = true ↔
      ((sampleTable.getColumnByName "dens").isSome = true ∧
       (sampleTable.getColumnByName "y").isSome = true) :=
  setInputDataYD_defined_iff sampleBag sampleTable "y" "dens"

/-- Counterexample for C6 as stated: with formatters that can be told
apart, the z component of the tooltip is not rendered by the plot's
numeric formatting (neither axis), but by the variant-to-string
conversion. -/
theorem tooltip_z_formatting_counterexample :
    GetTooltipLabel constEnv "%x,%y,%z" (2, 3) 0 = "X,Y,V" ∧
    constEnv.fmtX 7 ≠ "V" ∧ constEnv.fmtY 7 ≠ "V" := by
  refine ⟨rfl, ?_, ?_⟩ <;> decide

/-- C6 (amended): the tooltip for that format is the x and y positions
rendered by the plot's numeric formatting for the matching axis, joined
with the density value rendered by variant-to-string. -/
theorem tooltip_xyz_components : C6Concl := by
  intro env pos si ds h
  simp only [GetTooltipLabel]
  rw [if_neg (by decide)]
  show tooltipScan env pos si
    ['%', 'x', ',', '%', 'y', ',', '%', 'z'] false = _
  simp only [tooltipScan, tooltipSubst, h]
  have hc : String.singleton ',' = "," := rfl
  rw [hc]
  simp [String.append_assoc]

/-- Witness for C6 at the concrete constant environment. -/
theorem tooltip_xyz_components_witness :
    GetTooltipLabel constEnv "%x,%y,%z" (2, 3) 0 =
      constEnv.fmtX 2 ++ "," ++ constEnv.fmtY 3 ++ "," ++
        constEnv.varStr (([7] : List ℚ).getD (0 : ℤ).toNat 0) :=
  tooltip_xyz_components constEnv (2, 3) 0 [7] rfl

/-- C9: whenever Paint draws the bags it returns with the shared brush at
opacity 128 regardless of the entry opacity while the RGB color is
restored, and PaintLegend restores both the color and the opacity. -/
theorem paint_brush_effects (s : PlotBag) (hv : s.visible = true)
    (hp : s.points ≠ none) (ht : s.table ≠ none) (hb : s.bagVisible = true) :
    C9Concl s := by
  constructor
  · have hcond : ¬ (s.visible = false ∨ s.points = none ∨ s.table = none) := by
      simp [hv, hp, ht]
    simp only [Paint]
    rw [if_neg hcond, if_pos hb]
    exact ⟨rfl, rfl, rfl, rfl⟩
  · intro rx ry rw rh
    rfl

/-- Witness for C9 at the concrete sample state. -/
theorem paint_brush_effects_witness : C9Concl sampleBag :=
  paint_brush_effects sampleBag rfl (by decide) (by decide) rfl

end VTKPlotBag
